import Mathlib

set_option maxRecDepth 8000

/-!
Verification of the rolling activity-statistics aggregator of the Conduit
repository. The definitions below are a shallow embedding of the Swift core
(`ActivitySeries`, `ActivityStats`, `ConduitManager`, the
`ReactInProxyActivityStats` wire encoding) and of the TypeScript zod receiving
schema (`InProxyActivityStatsSchema`).

Modelling conventions:
* Swift `Int` is embedded as `Int`, Swift `UInt64` as `Nat` together with
  explicit range checks against `2 ^ 64` wherever the source performs a
  trapping conversion or trapping arithmetic; a Swift runtime trap is
  represented by an `Option` result of `none`.
* `Deque<Int>` is embedded as `List Int`; `removeFirst` is `List.tail` and
  `append` is `· ++ [v]` (all uses in the source act on non-empty deques).
* `TimeInterval` (`Double`, seconds) timestamps are embedded as `Nat`
  millisecond counts; Foundation `round` (half away from zero) on a
  non-negative seconds value `d / 1000` becomes `(d + 500) / 1000` in exact
  integer arithmetic, which agrees with the source on every
  millisecond-resolution input.
-/

/-- Number of values of a 64-bit unsigned integer; a Swift `UInt64`
conversion or addition traps outside `[0, UINT64_CARD)`. -/
def UINT64_CARD : Nat := 2 ^ 64

/-- Swift `UInt64(i)` for `i : Int`: traps (`none`) when `i` is negative or
does not fit in 64 bits. -/
def uint64OfInt (i : Int) : Option Nat :=
  if 0 ≤ i ∧ i < (UINT64_CARD : Int) then some i.toNat else none

/-- Swift `UInt64` addition `a + b`: traps (`none`) on overflow. -/
def uint64Add (a b : Nat) : Option Nat :=
  if a + b < UINT64_CARD then some (a + b) else none

/-- Embedding of Swift `struct ActivitySeries`: a fixed-capacity multi-channel
rolling window. The four channels are oldest-first lists. -/
structure ActivitySeries where
  msBucketPeriod : Nat
  numBuckets : Nat
  bytesUp : List Int
  bytesDown : List Int
  connectingClients : List Int
  connectedClients : List Int
  deriving Repr, DecidableEq

/-- Embedding of `ActivitySeries.init(msBucketPeriod:numBuckets:)`: every
channel starts as `numBuckets` zero-filled buckets. -/
def ActivitySeries.init (msBucketPeriod numBuckets : Nat) : ActivitySeries :=
  { msBucketPeriod := msBucketPeriod
    numBuckets := numBuckets
    bytesUp := List.replicate numBuckets 0
    bytesDown := List.replicate numBuckets 0
    connectingClients := List.replicate numBuckets 0
    connectedClients := List.replicate numBuckets 0 }

/-- Embedding of `ActivitySeries.pushDataPoints`: drop the oldest element of
each channel (`removeFirst`) and append the new observation. -/
def ActivitySeries.pushDataPoints (s : ActivitySeries) (bu bd cg cd : Int) :
    ActivitySeries :=
  { s with
    bytesUp := s.bytesUp.tail ++ [bu]
    bytesDown := s.bytesDown.tail ++ [bd]
    connectingClients := s.connectingClients.tail ++ [cg]
    connectedClients := s.connectedClients.tail ++ [cd] }

/-- Iterated zero push: `(1...n).forEach { _ in pushDataPoints(0, 0, 0, 0) }`
from `updateSeries`. -/
def ActivitySeries.pushZeros (s : ActivitySeries) : Nat → ActivitySeries
  | 0 => s
  | n + 1 => (s.pushDataPoints 0 0 0 0).pushZeros n

/-- Embedding of `ActivitySeries.updateSeries(msSinceUpdate:...)`:
`elapsedBucketCount = Int(msSinceUpdate / msBucketPeriod) - 1`, clamped above
by `numBuckets`; if positive, that many zero buckets are pushed; finally the
observed values are pushed once. -/
def ActivitySeries.updateSeries (s : ActivitySeries) (msSinceUpdate : Nat)
    (bu bd cg cd : Int) : ActivitySeries :=
  let elapsedBucketCount : Int :=
    ((msSinceUpdate / s.msBucketPeriod : Nat) : Int) - 1
  let elapsedBucketCount : Int :=
    if elapsedBucketCount > (s.numBuckets : Int) then (s.numBuckets : Int)
    else elapsedBucketCount
  let s' :=
    if elapsedBucketCount > 0 then s.pushZeros elapsedBucketCount.toNat else s
  s'.pushDataPoints bu bd cg cd

/-- All four channels of the series have length `n`. -/
def ActivitySeries.hasLen (s : ActivitySeries) (n : Nat) : Prop :=
  s.bytesUp.length = n ∧ s.bytesDown.length = n ∧
    s.connectingClients.length = n ∧ s.connectedClients.length = n

instance (s : ActivitySeries) (n : Nat) : Decidable (s.hasLen n) := by
  unfold ActivitySeries.hasLen; infer_instance

/-- List-level view of one channel under `n` zero pushes. -/
def pushGapList (xs : List Int) : Nat → List Int
  | 0 => xs
  | n + 1 => pushGapList (xs.tail ++ [0]) n

-- Helper lemmas about the list operations behind pushDataPoints / pushZeros.

theorem tail_append_singleton_length {xs : List Int} {v : Int} {n : Nat}
    (hlen : xs.length = n) (hn : 0 < n) : (xs.tail ++ [v]).length = n := by
  cases xs with
  | nil => simp at hlen; omega
  | cons x xs => simpa using hlen

theorem pushGapList_length {xs : List Int} {n k : Nat}
    (hlen : xs.length = n) (hn : 0 < n) : (pushGapList xs k).length = n := by
  induction k generalizing xs with
  | zero => simpa [pushGapList] using hlen
  | succ k ih =>
      simp only [pushGapList]
      exact ih (tail_append_singleton_length hlen hn)

theorem pushGapList_eq_drop_append {xs : List Int} {k : Nat}
    (hk : k ≤ xs.length) :
    pushGapList xs k = xs.drop k ++ List.replicate k 0 := by
  induction k generalizing xs with
  | zero => simp [pushGapList]
  | succ k ih =>
      cases xs with
      | nil => simp at hk
      | cons x xs =>
          have hk' : k ≤ xs.length := by simpa using hk
          simp only [pushGapList, List.tail_cons]
          rw [ih (by simp; omega)]
          rw [List.drop_append_of_le_length hk']
          simp [List.replicate_succ, List.drop_succ_cons, List.append_assoc]

theorem ActivitySeries.pushZeros_channels (s : ActivitySeries) (n : Nat) :
    (s.pushZeros n).bytesUp = pushGapList s.bytesUp n ∧
    (s.pushZeros n).bytesDown = pushGapList s.bytesDown n ∧
    (s.pushZeros n).connectingClients = pushGapList s.connectingClients n ∧
    (s.pushZeros n).connectedClients = pushGapList s.connectedClients n ∧
    (s.pushZeros n).msBucketPeriod = s.msBucketPeriod ∧
    (s.pushZeros n).numBuckets = s.numBuckets := by
  induction n generalizing s with
  | zero => simp [ActivitySeries.pushZeros, pushGapList]
  | succ n ih =>
      simpa [ActivitySeries.pushZeros, pushGapList, ActivitySeries.pushDataPoints]
        using ih (s.pushDataPoints 0 0 0 0)

theorem ActivitySeries.updateSeries_eq (s : ActivitySeries) (ms : Nat)
    (bu bd cg cd : Int) :
    s.updateSeries ms bu bd cg cd =
      (s.pushZeros (min (ms / s.msBucketPeriod - 1) s.numBuckets)).pushDataPoints
        bu bd cg cd := by
  simp only [ActivitySeries.updateSeries]
  by_cases h1 : ((ms / s.msBucketPeriod : Nat) : Int) - 1 > (s.numBuckets : Int)
  · rw [if_pos h1]
    by_cases h2 : ((s.numBuckets : Int)) > 0
    · rw [if_pos h2]
      have he : (s.numBuckets : Int).toNat = min (ms / s.msBucketPeriod - 1) s.numBuckets := by
        omega
      rw [he]
    · rw [if_neg h2]
      have he : min (ms / s.msBucketPeriod - 1) s.numBuckets = 0 := by omega
      rw [he]
      rfl
  · rw [if_neg h1]
    by_cases h2 : ((ms / s.msBucketPeriod : Nat) : Int) - 1 > 0
    · rw [if_pos h2]
      have he : (((ms / s.msBucketPeriod : Nat) : Int) - 1).toNat =
          min (ms / s.msBucketPeriod - 1) s.numBuckets := by omega
      rw [he]
    · rw [if_neg h2]
      have he : min (ms / s.msBucketPeriod - 1) s.numBuckets = 0 := by omega
      rw [he]
      rfl

theorem ActivitySeries.hasLen_pushDataPoints {s : ActivitySeries} {n : Nat}
    (h : s.hasLen n) (hn : 0 < n) (bu bd cg cd : Int) :
    (s.pushDataPoints bu bd cg cd).hasLen n :=
  ⟨tail_append_singleton_length h.1 hn, tail_append_singleton_length h.2.1 hn,
    tail_append_singleton_length h.2.2.1 hn, tail_append_singleton_length h.2.2.2 hn⟩

theorem ActivitySeries.hasLen_pushZeros {s : ActivitySeries} {n : Nat}
    (h : s.hasLen n) (hn : 0 < n) (k : Nat) : (s.pushZeros k).hasLen n := by
  obtain ⟨c1, c2, c3, c4, _, _⟩ := s.pushZeros_channels k
  exact ⟨c1 ▸ pushGapList_length h.1 hn, c2 ▸ pushGapList_length h.2.1 hn,
    c3 ▸ pushGapList_length h.2.2.1 hn, c4 ▸ pushGapList_length h.2.2.2 hn⟩

theorem ActivitySeries.hasLen_updateSeries {s : ActivitySeries} {n : Nat}
    (h : s.hasLen n) (hn : 0 < n) (ms : Nat) (bu bd cg cd : Int) :
    (s.updateSeries ms bu bd cg cd).hasLen n := by
  rw [ActivitySeries.updateSeries_eq]
  exact ActivitySeries.hasLen_pushDataPoints (ActivitySeries.hasLen_pushZeros h hn _) hn _ _ _ _

theorem ActivitySeries.updateSeries_fields (s : ActivitySeries) (ms : Nat)
    (bu bd cg cd : Int) :
    (s.updateSeries ms bu bd cg cd).msBucketPeriod = s.msBucketPeriod ∧
    (s.updateSeries ms bu bd cg cd).numBuckets = s.numBuckets := by
  rw [ActivitySeries.updateSeries_eq]
  obtain ⟨_, _, _, _, h5, h6⟩ :=
    s.pushZeros_channels (min (ms / s.msBucketPeriod - 1) s.numBuckets)
  exact ⟨h5, h6⟩

theorem tail_append_tail_append {xs : List Int} (h : 2 ≤ xs.length) (a b : Int) :
    (xs.tail ++ [a]).tail ++ [b] = xs.drop 2 ++ [a, b] := by
  cases xs with
  | nil => simp at h
  | cons x xs =>
      cases xs with
      | nil => simp at h
      | cons y ys => simp

/-- C1: for a 5-bucket, 1000ms-period series of all zeros, one `updateSeries`
call with `msSinceUpdate = 3000` and values `(10, 20, 1, 2)` performs exactly
two zero-filled pushes followed by one push of the observed values; each
channel still has length 5, the last three buckets of `bytesUp` are
`[0, 0, 10]`, and the two oldest zeros were dropped. -/
theorem claim1_zero_gap_fill :
    (ActivitySeries.init 1000 5).updateSeries 3000 10 20 1 2 =
        ((((ActivitySeries.init 1000 5).pushDataPoints 0 0 0 0).pushDataPoints
          0 0 0 0).pushDataPoints 10 20 1 2) ∧
      (ActivitySeries.init 1000 5).updateSeries 3000 10 20 1 2 =
        { msBucketPeriod := 1000, numBuckets := 5, bytesUp := [0, 0, 0, 0, 10],
          bytesDown := [0, 0, 0, 0, 20], connectingClients := [0, 0, 0, 0, 1],
          connectedClients := [0, 0, 0, 0, 2] } ∧
      ((ActivitySeries.init 1000 5).updateSeries 3000 10 20 1 2).bytesUp.drop 2 =
        [0, 0, 10] ∧
      ((ActivitySeries.init 1000 5).updateSeries 3000 10 20 1 2).hasLen 5 := by
  decide

/-- C2: when the computed elapsed-bucket count `Int(ms / period) - 1` exceeds
`numBuckets`, the gap is clamped to `numBuckets`, so the window is fully
zero-filled before the observation lands: afterwards every bucket of every
channel is 0 except the newest, which holds the observed values. -/
theorem claim2_clamped_gap (s : ActivitySeries) (ms : Nat) (bu bd cg cd : Int)
    (hn : 0 < s.numBuckets) (hlen : s.hasLen s.numBuckets)
    (hgap : (s.numBuckets : Int) < ((ms / s.msBucketPeriod : Nat) : Int) - 1) :
    s.updateSeries ms bu bd cg cd =
        (s.pushZeros s.numBuckets).pushDataPoints bu bd cg cd ∧
      (s.pushZeros s.numBuckets).bytesUp = List.replicate s.numBuckets 0 ∧
      (s.pushZeros s.numBuckets).bytesDown = List.replicate s.numBuckets 0 ∧
      (s.pushZeros s.numBuckets).connectingClients =
        List.replicate s.numBuckets 0 ∧
      (s.pushZeros s.numBuckets).connectedClients =
        List.replicate s.numBuckets 0 ∧
      (s.updateSeries ms bu bd cg cd).bytesUp =
        List.replicate (s.numBuckets - 1) 0 ++ [bu] ∧
      (s.updateSeries ms bu bd cg cd).bytesDown =
        List.replicate (s.numBuckets - 1) 0 ++ [bd] ∧
      (s.updateSeries ms bu bd cg cd).connectingClients =
        List.replicate (s.numBuckets - 1) 0 ++ [cg] ∧
      (s.updateSeries ms bu bd cg cd).connectedClients =
        List.replicate (s.numBuckets - 1) 0 ++ [cd] ∧
      (s.updateSeries ms bu bd cg cd).hasLen s.numBuckets := by
  have hmin : min (ms / s.msBucketPeriod - 1) s.numBuckets = s.numBuckets := by
    omega
  have heq := s.updateSeries_eq ms bu bd cg cd
  rw [hmin] at heq
  obtain ⟨c1, c2, c3, c4, _, _⟩ := s.pushZeros_channels s.numBuckets
  have tailrep : ∀ m : Nat,
      (List.replicate m (0 : Int)).tail = List.replicate (m - 1) 0 := by
    intro m; cases m <;> simp
  have z1 : (s.pushZeros s.numBuckets).bytesUp = List.replicate s.numBuckets 0 := by
    rw [c1, pushGapList_eq_drop_append hlen.1.symm.le,
      List.drop_eq_nil_of_le hlen.1.le, List.nil_append]
  have z2 : (s.pushZeros s.numBuckets).bytesDown = List.replicate s.numBuckets 0 := by
    rw [c2, pushGapList_eq_drop_append hlen.2.1.symm.le,
      List.drop_eq_nil_of_le hlen.2.1.le, List.nil_append]
  have z3 : (s.pushZeros s.numBuckets).connectingClients =
      List.replicate s.numBuckets 0 := by
    rw [c3, pushGapList_eq_drop_append hlen.2.2.1.symm.le,
      List.drop_eq_nil_of_le hlen.2.2.1.le, List.nil_append]
  have z4 : (s.pushZeros s.numBuckets).connectedClients =
      List.replicate s.numBuckets 0 := by
    rw [c4, pushGapList_eq_drop_append hlen.2.2.2.symm.le,
      List.drop_eq_nil_of_le hlen.2.2.2.le, List.nil_append]
  refine ⟨heq, z1, z2, z3, z4, ?_, ?_, ?_, ?_,
    ActivitySeries.hasLen_updateSeries hlen hn ms bu bd cg cd⟩
  · rw [heq]; simp only [ActivitySeries.pushDataPoints]; rw [z1, tailrep]
  · rw [heq]; simp only [ActivitySeries.pushDataPoints]; rw [z2, tailrep]
  · rw [heq]; simp only [ActivitySeries.pushDataPoints]; rw [z3, tailrep]
  · rw [heq]; simp only [ActivitySeries.pushDataPoints]; rw [z4, tailrep]

/-- Witness for C2: a 3-bucket series with 10000ms elapsed (gap 9 > 3). -/
theorem claim2_clamped_gap_witness :
    (ActivitySeries.init 1000 3).updateSeries 10000 7 8 1 2 =
        ((ActivitySeries.init 1000 3).pushZeros 3).pushDataPoints 7 8 1 2 ∧
      ((ActivitySeries.init 1000 3).pushZeros 3).bytesUp = List.replicate 3 0 ∧
      ((ActivitySeries.init 1000 3).pushZeros 3).bytesDown = List.replicate 3 0 ∧
      ((ActivitySeries.init 1000 3).pushZeros 3).connectingClients =
        List.replicate 3 0 ∧
      ((ActivitySeries.init 1000 3).pushZeros 3).connectedClients =
        List.replicate 3 0 ∧
      ((ActivitySeries.init 1000 3).updateSeries 10000 7 8 1 2).bytesUp =
        List.replicate 2 0 ++ [7] ∧
      ((ActivitySeries.init 1000 3).updateSeries 10000 7 8 1 2).bytesDown =
        List.replicate 2 0 ++ [8] ∧
      ((ActivitySeries.init 1000 3).updateSeries 10000 7 8 1 2).connectingClients =
        List.replicate 2 0 ++ [1] ∧
      ((ActivitySeries.init 1000 3).updateSeries 10000 7 8 1 2).connectedClients =
        List.replicate 2 0 ++ [2] ∧
      ((ActivitySeries.init 1000 3).updateSeries 10000 7 8 1 2).hasLen 3 :=
  claim2_clamped_gap (ActivitySeries.init 1000 3) 10000 7 8 1 2 (by decide)
    (by decide) (by decide)

/-- C7: when the elapsed time yields a gap-bucket count of at most zero
(`ms / period ≤ 1`), each `updateSeries` call performs exactly one push; two
calls in immediate succession append two new rows and drop the two oldest
rows from every channel. -/
theorem claim7_sub_period_pushes (s : ActivitySeries) (ms1 ms2 : Nat)
    (a1 b1 c1 d1 a2 b2 c2 d2 : Int)
    (hn : 2 ≤ s.numBuckets) (hlen : s.hasLen s.numBuckets)
    (h1 : ms1 / s.msBucketPeriod ≤ 1) (h2 : ms2 / s.msBucketPeriod ≤ 1) :
    s.updateSeries ms1 a1 b1 c1 d1 = s.pushDataPoints a1 b1 c1 d1 ∧
      (s.updateSeries ms1 a1 b1 c1 d1).updateSeries ms2 a2 b2 c2 d2 =
        (s.pushDataPoints a1 b1 c1 d1).pushDataPoints a2 b2 c2 d2 ∧
      ((s.updateSeries ms1 a1 b1 c1 d1).updateSeries ms2 a2 b2 c2 d2).bytesUp =
        s.bytesUp.drop 2 ++ [a1, a2] ∧
      ((s.updateSeries ms1 a1 b1 c1 d1).updateSeries ms2 a2 b2 c2 d2).bytesDown =
        s.bytesDown.drop 2 ++ [b1, b2] ∧
      ((s.updateSeries ms1 a1 b1 c1 d1).updateSeries ms2 a2 b2 c2
          d2).connectingClients =
        s.connectingClients.drop 2 ++ [c1, c2] ∧
      ((s.updateSeries ms1 a1 b1 c1 d1).updateSeries ms2 a2 b2 c2
          d2).connectedClients =
        s.connectedClients.drop 2 ++ [d1, d2] ∧
      ((s.updateSeries ms1 a1 b1 c1 d1).updateSeries ms2 a2 b2 c2 d2).hasLen
        s.numBuckets := by
  have e1 : s.updateSeries ms1 a1 b1 c1 d1 = s.pushDataPoints a1 b1 c1 d1 := by
    have hmin : min (ms1 / s.msBucketPeriod - 1) s.numBuckets = 0 := by omega
    have heq := s.updateSeries_eq ms1 a1 b1 c1 d1
    rw [hmin] at heq
    exact heq
  have e2 : (s.pushDataPoints a1 b1 c1 d1).updateSeries ms2 a2 b2 c2 d2 =
      (s.pushDataPoints a1 b1 c1 d1).pushDataPoints a2 b2 c2 d2 := by
    have hmin : min (ms2 / (s.pushDataPoints a1 b1 c1 d1).msBucketPeriod - 1)
        (s.pushDataPoints a1 b1 c1 d1).numBuckets = 0 := by
      show min (ms2 / s.msBucketPeriod - 1) s.numBuckets = 0
      omega
    have heq := (s.pushDataPoints a1 b1 c1 d1).updateSeries_eq ms2 a2 b2 c2 d2
    rw [hmin] at heq
    exact heq
  have e12 : (s.updateSeries ms1 a1 b1 c1 d1).updateSeries ms2 a2 b2 c2 d2 =
      (s.pushDataPoints a1 b1 c1 d1).pushDataPoints a2 b2 c2 d2 := by
    rw [e1, e2]
  have h0 : 0 < s.numBuckets := by omega
  refine ⟨e1, e12, ?_, ?_, ?_, ?_, ?_⟩
  · rw [e12]; simp only [ActivitySeries.pushDataPoints]
    exact tail_append_tail_append (by rw [hlen.1]; exact hn) a1 a2
  · rw [e12]; simp only [ActivitySeries.pushDataPoints]
    exact tail_append_tail_append (by rw [hlen.2.1]; exact hn) b1 b2
  · rw [e12]; simp only [ActivitySeries.pushDataPoints]
    exact tail_append_tail_append (by rw [hlen.2.2.1]; exact hn) c1 c2
  · rw [e12]; simp only [ActivitySeries.pushDataPoints]
    exact tail_append_tail_append (by rw [hlen.2.2.2]; exact hn) d1 d2
  · exact ActivitySeries.hasLen_updateSeries
      (ActivitySeries.hasLen_updateSeries hlen h0 ms1 a1 b1 c1 d1) h0 ms2 a2 b2 c2 d2

/-- Witness for C7: two immediate updates on a fresh 3-bucket series. -/
theorem claim7_sub_period_pushes_witness :
    (ActivitySeries.init 1000 3).updateSeries 0 4 5 1 2 =
        (ActivitySeries.init 1000 3).pushDataPoints 4 5 1 2 ∧
      ((ActivitySeries.init 1000 3).updateSeries 0 4 5 1 2).updateSeries 0 6 7 0 1 =
        ((ActivitySeries.init 1000 3).pushDataPoints 4 5 1 2).pushDataPoints 6 7 0 1 ∧
      (((ActivitySeries.init 1000 3).updateSeries 0 4 5 1 2).updateSeries 0 6 7 0 1).bytesUp =
        (ActivitySeries.init 1000 3).bytesUp.drop 2 ++ [4, 6] ∧
      (((ActivitySeries.init 1000 3).updateSeries 0 4 5 1 2).updateSeries 0 6 7 0 1).bytesDown =
        (ActivitySeries.init 1000 3).bytesDown.drop 2 ++ [5, 7] ∧
      (((ActivitySeries.init 1000 3).updateSeries 0 4 5 1 2).updateSeries 0 6 7 0 1).connectingClients =
        (ActivitySeries.init 1000 3).connectingClients.drop 2 ++ [1, 0] ∧
      (((ActivitySeries.init 1000 3).updateSeries 0 4 5 1 2).updateSeries 0 6 7 0 1).connectedClients =
        (ActivitySeries.init 1000 3).connectedClients.drop 2 ++ [2, 1] ∧
      (((ActivitySeries.init 1000 3).updateSeries 0 4 5 1 2).updateSeries 0 6 7 0 1).hasLen 3 :=
  claim7_sub_period_pushes (ActivitySeries.init 1000 3) 0 0 4 5 1 2 6 7 0 1
    (by decide) (by decide) (by decide) (by decide)

/-- Embedding of Swift `struct ActivityStats`. `TimeInterval` timestamps are
in integer milliseconds (see the header). `seriesFast` is constructed with
`msBucketPeriod: 1000, numBuckets: 288` as in the source. -/
structure ActivityStats where
  startTime : Nat
  lastUpdate : Nat
  totalBytesUp : Nat
  totalBytesDown : Nat
  currentConnectingClients : Int
  currentConnectedClients : Int
  seriesFast : ActivitySeries
  deriving Repr, DecidableEq

/-- Embedding of `ActivityStats.init()`: `startTime = Date(); lastUpdate =
startTime`, all counters zero, fresh 288-bucket 1000ms series. -/
def ActivityStats.init (now : Nat) : ActivityStats :=
  { startTime := now
    lastUpdate := now
    totalBytesUp := 0
    totalBytesDown := 0
    currentConnectingClients := 0
    currentConnectedClients := 0
    seriesFast := ActivitySeries.init 1000 288 }

/-- Embedding of the computed property `msElapsedTime`:
`UInt64((lastUpdate - startTime) * 1000)` with second-valued timestamps, i.e.
the millisecond difference. -/
def ActivityStats.msElapsedTime (s : ActivityStats) : Nat :=
  s.lastUpdate - s.startTime

/-- Foundation `round` (half away from zero) of `d` milliseconds taken as
`d / 1000` seconds: the nearest whole-second count. -/
def roundSecondsOfMs (d : Int) : Int :=
  if 0 ≤ d then ((d.toNat + 500) / 1000 : Nat)
  else -((((-d).toNat + 500) / 1000 : Nat) : Int)

/-- Embedding of `ActivityStats.update(bytesUp:bytesDown:connectingClients:connectedClients:)`.
The Swift trapping conversions `UInt64(bytesUp)`, `UInt64(bytesDown)`, the
trapping `+=` on the totals, the trapping `UInt64(round(now - lastUpdate))`
and the trapping `* 1000` are modelled by the `Option` checks, in source
order; `none` is a runtime trap. -/
def ActivityStats.update (s : ActivityStats) (now : Nat)
    (bytesUp bytesDown connectingClients connectedClients : Int) :
    Option ActivityStats :=
  match uint64OfInt bytesUp, uint64OfInt bytesDown with
  | some bu, some bd =>
    match uint64Add s.totalBytesUp bu, uint64Add s.totalBytesDown bd with
    | some newTotalUp, some newTotalDown =>
      match uint64OfInt (roundSecondsOfMs ((now : Int) - (s.lastUpdate : Int))) with
      | some secs =>
        if secs * 1000 < UINT64_CARD then
          some { s with
            totalBytesUp := newTotalUp
            totalBytesDown := newTotalDown
            currentConnectingClients := connectingClients
            currentConnectedClients := connectedClients
            seriesFast := s.seriesFast.updateSeries (secs * 1000) bytesUp
              bytesDown connectingClients connectedClients
            lastUpdate := now }
        else none
      | none => none
    | _, _ => none
  | _, _ => none

/-- One engine tick as delivered to `update`, with its arrival time. -/
structure Tick where
  now : Nat
  bytesUp : Int
  bytesDown : Int
  connectingClients : Int
  connectedClients : Int
  deriving Repr, DecidableEq

/-- A sequence of `update` calls; `none` as soon as one call traps. -/
def ActivityStats.runUpdates (s : ActivityStats) : List Tick → Option ActivityStats
  | [] => some s
  | t :: ts =>
    match s.update t.now t.bytesUp t.bytesDown t.connectingClients t.connectedClients with
    | some s2 => s2.runUpdates ts
    | none => none

theorem uint64OfInt_some {i : Int} {v : Nat} (h : uint64OfInt i = some v) :
    0 ≤ i ∧ i < (UINT64_CARD : Int) ∧ v = i.toNat := by
  unfold uint64OfInt at h
  split at h
  · rename_i hc
    exact ⟨hc.1, hc.2, (Option.some_inj.mp h).symm⟩
  · exact absurd h (by simp)

theorem uint64Add_some {a b v : Nat} (h : uint64Add a b = some v) :
    a + b < UINT64_CARD ∧ v = a + b := by
  unfold uint64Add at h
  split at h
  · rename_i hc
    exact ⟨hc, (Option.some_inj.mp h).symm⟩
  · exact absurd h (by simp)

/-- What a successful `update` does to each field. -/
theorem ActivityStats.update_eq_some {s : ActivityStats} {now : Nat}
    {bu bd cg cd : Int} {s' : ActivityStats}
    (h : s.update now bu bd cg cd = some s') :
    0 ≤ bu ∧ 0 ≤ bd ∧
    s'.totalBytesUp = s.totalBytesUp + bu.toNat ∧
    s'.totalBytesDown = s.totalBytesDown + bd.toNat ∧
    s'.currentConnectingClients = cg ∧
    s'.currentConnectedClients = cd ∧
    s'.startTime = s.startTime ∧
    s'.lastUpdate = now ∧
    s'.seriesFast = s.seriesFast.updateSeries
      ((roundSecondsOfMs ((now : Int) - (s.lastUpdate : Int))).toNat * 1000)
      bu bd cg cd := by
  unfold ActivityStats.update at h
  split at h
  case _ buv bdv hbu hbd =>
    split at h
    case _ tuv tdv htu htd =>
      split at h
      case _ secs hsecs =>
        split at h
        · obtain ⟨hbu0, _, hbuv⟩ := uint64OfInt_some hbu
          obtain ⟨hbd0, _, hbdv⟩ := uint64OfInt_some hbd
          obtain ⟨_, htuv⟩ := uint64Add_some htu
          obtain ⟨_, htdv⟩ := uint64Add_some htd
          obtain ⟨_, _, hsv⟩ := uint64OfInt_some hsecs
          obtain rfl := Option.some_inj.mp h
          subst hbuv hbdv htuv htdv hsv
          exact ⟨hbu0, hbd0, rfl, rfl, rfl, rfl, rfl, rfl, rfl⟩
        · exact absurd h (by simp)
      case _ => exact absurd h (by simp)
    case _ => exact absurd h (by simp)
  case _ => exact absurd h (by simp)

theorem ActivityStats.runUpdates_hasLen {l : List Tick} {s0 s1 : ActivityStats}
    (h0 : s0.seriesFast.hasLen 288) (hr : s0.runUpdates l = some s1) :
    s1.seriesFast.hasLen 288 := by
  induction l generalizing s0 with
  | nil =>
      simp only [ActivityStats.runUpdates] at hr
      rwa [← Option.some_inj.mp hr]
  | cons t l ih =>
      simp only [ActivityStats.runUpdates] at hr
      split at hr
      · rename_i s2 heq
        have hs := (ActivityStats.update_eq_some heq).2.2.2.2.2.2.2.2
        refine ih ?_ hr
        rw [hs]
        exact ActivitySeries.hasLen_updateSeries h0 (by omega) _ _ _ _ _
      · exact absurd hr (by simp)

/-- C3: after any sequence of successful `update` calls starting from a fresh
`ActivityStats`, all four series channels have length exactly 288 (the
`bucketCount`): the initial channels are zero-filled at length 288 and each
push drops one oldest element and appends one new one. -/
theorem claim3_fixed_length (now : Nat) (ts : List Tick) (s' : ActivityStats)
    (h : (ActivityStats.init now).runUpdates ts = some s') :
    s'.seriesFast.bytesUp.length = 288 ∧
      s'.seriesFast.bytesDown.length = 288 ∧
      s'.seriesFast.connectingClients.length = 288 ∧
      s'.seriesFast.connectedClients.length = 288 := by
  have hinit : (ActivityStats.init now).seriesFast.hasLen 288 := by
    refine ⟨?_, ?_, ?_, ?_⟩ <;>
      simp [ActivityStats.init, ActivitySeries.init]
  exact ActivityStats.runUpdates_hasLen hinit h

/-- Witness for C3: one concrete tick on a fresh stats object. -/
theorem claim3_fixed_length_witness :
    ((((ActivityStats.init 0).runUpdates [⟨1000, 5, 6, 1, 2⟩]).getD
        (ActivityStats.init 0)).seriesFast.bytesUp.length = 288 ∧
      (((ActivityStats.init 0).runUpdates [⟨1000, 5, 6, 1, 2⟩]).getD
        (ActivityStats.init 0)).seriesFast.bytesDown.length = 288 ∧
      (((ActivityStats.init 0).runUpdates [⟨1000, 5, 6, 1, 2⟩]).getD
        (ActivityStats.init 0)).seriesFast.connectingClients.length = 288 ∧
      (((ActivityStats.init 0).runUpdates [⟨1000, 5, 6, 1, 2⟩]).getD
        (ActivityStats.init 0)).seriesFast.connectedClients.length = 288) :=
  claim3_fixed_length 0 [⟨1000, 5, 6, 1, 2⟩] _ (by rfl)

/-- C4 counterexample: calling `update` with a negative `bytesUp` does not
clamp to zero; the `UInt64(bytesUp)` conversion traps (modelled `none`), so
the claim that such a call "does not raise or crash" is false on the code. -/
theorem claim4_counterexample :
    (ActivityStats.init 0).update 0 (-1) 0 0 0 = none := by decide

/-- C4 amended: if `update` is called with a negative `bytesUp` or
`bytesDown`, the Swift `UInt64` conversion of that argument traps (a fatal
runtime error, modelled as `none`): there is no defensive clamping to zero,
and no updated state is produced. -/
theorem claim4_negative_input_traps (s : ActivityStats) (now : Nat)
    (bu bd cg cd : Int) (h : bu < 0 ∨ bd < 0) :
    s.update now bu bd cg cd = none := by
  have hneg : ∀ i : Int, i < 0 → uint64OfInt i = none := by
    intro i hi
    have hc : ¬(0 ≤ i ∧ i < (UINT64_CARD : Int)) := by
      intro hc
      omega
    unfold uint64OfInt
    rw [if_neg hc]
  unfold ActivityStats.update
  rcases h with h | h
  · rw [hneg bu h]
  · rw [hneg bd h]
    cases uint64OfInt bu <;> rfl

/-- Witness for the amended C4 at a concrete negative input. -/
theorem claim4_negative_input_traps_witness :
    ((-5 : Int) < 0 ∨ (7 : Int) < 0) ∧
      (ActivityStats.init 3).update 10 (-5) 7 0 0 = none :=
  ⟨Or.inl (by decide),
    claim4_negative_input_traps (ActivityStats.init 3) 10 (-5) 7 0 0
      (Or.inl (by decide))⟩

/-- C6: across every successful sequence of `update` calls with non-negative
byte deltas, the cumulative 64-bit totals `totalBytesUp` and `totalBytesDown`
are non-decreasing. -/
theorem claim6_monotonic_totals (ts : List Tick) (s s' : ActivityStats)
    (hnn : ∀ t ∈ ts, 0 ≤ t.bytesUp ∧ 0 ≤ t.bytesDown)
    (h : s.runUpdates ts = some s') :
    s.totalBytesUp ≤ s'.totalBytesUp ∧
      s.totalBytesDown ≤ s'.totalBytesDown := by
  induction ts generalizing s with
  | nil =>
      simp only [ActivityStats.runUpdates] at h
      rw [← Option.some_inj.mp h]
      exact ⟨le_rfl, le_rfl⟩
  | cons t l ih =>
      simp only [ActivityStats.runUpdates] at h
      split at h
      · rename_i s2 heq
        obtain ⟨_, _, hup, hdown, _⟩ := ActivityStats.update_eq_some heq
        have hrest := ih s2 (fun u hu => hnn u (List.mem_cons_of_mem _ hu)) h
        have h1 : s.totalBytesUp ≤ s2.totalBytesUp := by omega
        have h2 : s.totalBytesDown ≤ s2.totalBytesDown := by omega
        exact ⟨le_trans h1 hrest.1, le_trans h2 hrest.2⟩
      · exact absurd h (by simp)

/-- Witness for C6: two concrete non-negative ticks. -/
theorem claim6_monotonic_totals_witness :
    (ActivityStats.init 0).totalBytesUp ≤
        (((ActivityStats.init 0).runUpdates
          [⟨1000, 5, 6, 1, 2⟩, ⟨2000, 3, 4, 1, 2⟩]).getD
            (ActivityStats.init 0)).totalBytesUp ∧
      (ActivityStats.init 0).totalBytesDown ≤
        (((ActivityStats.init 0).runUpdates
          [⟨1000, 5, 6, 1, 2⟩, ⟨2000, 3, 4, 1, 2⟩]).getD
            (ActivityStats.init 0)).totalBytesDown :=
  claim6_monotonic_totals [⟨1000, 5, 6, 1, 2⟩, ⟨2000, 3, 4, 1, 2⟩]
    (ActivityStats.init 0) _ (by decide) (by rfl)

/-- C8: for `now ≥ lastUpdate`, the elapsed time forwarded to the rolling
series is the whole-second count nearest to `now - lastUpdate`, expressed in
milliseconds (`k * 1000` with `k * 1000` within half a second of the true
elapsed time); hence jitter of less than half a second around a nominal
one-second tick (`500 < now - lastUpdate < 1500`) inserts no gap bucket:
the series receives exactly one push of the observed values. -/
theorem claim8_jitter_rounding (s : ActivityStats) (now : Nat)
    (bu bd cg cd : Int) (s' : ActivityStats)
    (hmono : s.lastUpdate ≤ now)
    (hperiod : s.seriesFast.msBucketPeriod = 1000)
    (h : s.update now bu bd cg cd = some s') :
    (∃ k : Nat,
      s'.seriesFast = s.seriesFast.updateSeries (k * 1000) bu bd cg cd ∧
      k * 1000 ≤ (now - s.lastUpdate) + 500 ∧
      now - s.lastUpdate < k * 1000 + 500) ∧
    (500 < now - s.lastUpdate → now - s.lastUpdate < 1500 →
      s'.seriesFast = s.seriesFast.pushDataPoints bu bd cg cd) := by
  obtain ⟨_, _, _, _, _, _, _, _, hser⟩ := ActivityStats.update_eq_some h
  have hd : (now : Int) - (s.lastUpdate : Int) = ((now - s.lastUpdate : Nat) : Int) := by
    omega
  have hr : roundSecondsOfMs ((now : Int) - (s.lastUpdate : Int)) =
      (((now - s.lastUpdate + 500) / 1000 : Nat) : Int) := by
    rw [hd]
    unfold roundSecondsOfMs
    rw [if_pos (by omega)]
    omega
  rw [hr] at hser
  have htn : ((((now - s.lastUpdate + 500) / 1000 : Nat) : Int)).toNat =
      (now - s.lastUpdate + 500) / 1000 := by omega
  rw [htn] at hser
  constructor
  · exact ⟨(now - s.lastUpdate + 500) / 1000, hser, by omega, by omega⟩
  · intro hlo hhi
    have hk : (now - s.lastUpdate + 500) / 1000 = 1 := by omega
    rw [hk] at hser
    have hone : s.seriesFast.updateSeries 1000 bu bd cg cd =
        s.seriesFast.pushDataPoints bu bd cg cd := by
      have heq := s.seriesFast.updateSeries_eq 1000 bu bd cg cd
      rw [hperiod] at heq
      simpa using heq
    rw [hone] at hser
    exact hser

/-- Witness for C8: a fresh stats object ticked 1200ms later. -/
theorem claim8_jitter_rounding_witness :
    ((∃ k : Nat,
      (((ActivityStats.init 0).update 1200 4 5 1 2).getD
          (ActivityStats.init 0)).seriesFast =
        (ActivityStats.init 0).seriesFast.updateSeries (k * 1000) 4 5 1 2 ∧
      k * 1000 ≤ (1200 - (ActivityStats.init 0).lastUpdate) + 500 ∧
      1200 - (ActivityStats.init 0).lastUpdate < k * 1000 + 500) ∧
    (500 < 1200 - (ActivityStats.init 0).lastUpdate →
      1200 - (ActivityStats.init 0).lastUpdate < 1500 →
      (((ActivityStats.init 0).update 1200 4 5 1 2).getD
          (ActivityStats.init 0)).seriesFast =
        (ActivityStats.init 0).seriesFast.pushDataPoints 4 5 1 2)) :=
  claim8_jitter_rounding (ActivityStats.init 0) 1200 4 5 1 2 _
    (by decide) (by decide) (by rfl)

/-- Embedding of `ConduitManager.ConduitStatus`. -/
inductive ConduitStatus where
  | starting
  | started
  | stopping
  | stopped
  deriving Repr, DecidableEq

/-- The listener events the manager emits that matter here: status updates
(`onConduitStatusUpdate`) and activity-stats deliveries
(`onInproxyProxyActivity`). -/
inductive ConduitEventOut where
  | statusUpdate (status : ConduitStatus)
  | inproxyActivity (stats : ActivityStats)
  deriving Repr, DecidableEq

/-- The actor state of `ConduitManager` relevant to the activity-stats
lifecycle: its status and its optional `activityStats`. -/
structure ConduitManager where
  conduitStatus : ConduitStatus
  activityStats : Option ActivityStats
  deriving Repr, DecidableEq

/-- Embedding of `ConduitManager.startConduit`. `dupParams` stands for
`psiphonTunnelListener!.isEqualConduitParams(params)` and `success` for the
result of `psiphonTunnel!.start(forced: false)`; `now` is the construction
time of the fresh `ActivityStats()`. Returns the new state and the emitted
events (the failure path additionally throws, which changes no further
state). -/
def ConduitManager.startConduit (m : ConduitManager) (now : Nat)
    (dupParams success : Bool) : ConduitManager × List ConduitEventOut :=
  if m.conduitStatus = ConduitStatus.starting then (m, [])
  else if m.conduitStatus = ConduitStatus.started ∧ dupParams = true then (m, [])
  else if success then
    ({ conduitStatus := ConduitStatus.started,
       activityStats := some (ActivityStats.init now) },
     [ConduitEventOut.statusUpdate ConduitStatus.starting,
      ConduitEventOut.statusUpdate ConduitStatus.started,
      ConduitEventOut.inproxyActivity (ActivityStats.init now)])
  else
    ({ conduitStatus := ConduitStatus.stopped, activityStats := none },
     [ConduitEventOut.statusUpdate ConduitStatus.starting,
      ConduitEventOut.statusUpdate ConduitStatus.stopped])

/-- Embedding of `ConduitManager.stopConduit`: only a `started` manager
stops; the stats object is discarded (`activityStats = .none`). -/
def ConduitManager.stopConduit (m : ConduitManager) :
    ConduitManager × List ConduitEventOut :=
  if m.conduitStatus = ConduitStatus.started then
    ({ conduitStatus := ConduitStatus.stopped, activityStats := none },
     [ConduitEventOut.statusUpdate ConduitStatus.stopping,
      ConduitEventOut.statusUpdate ConduitStatus.stopped])
  else (m, [])

/-- Embedding of `ConduitManager.updateActivityStats`: a guard returns when
no stats object exists; otherwise the stats are updated (a trap propagates as
`none`) and one activity event is emitted. -/
def ConduitManager.updateActivityStats (m : ConduitManager) (now : Nat)
    (connectingClients connectedClients bytesUp bytesDown : Int) :
    Option (ConduitManager × List ConduitEventOut) :=
  match m.activityStats with
  | none => some (m, [])
  | some stats =>
    match stats.update now bytesUp bytesDown connectingClients connectedClients with
    | some stats2 =>
      some ({ m with activityStats := some stats2 },
        [ConduitEventOut.inproxyActivity stats2])
    | none => none

/-- C9: a successful `startConduit` installs a brand-new `ActivityStats`
whose totals and client gauges are zero, whose `startTime` equals its
`lastUpdate` (elapsed time 0), and whose 288-bucket series is fully
zero-filled; `stopConduit` from a started session discards the object. -/
theorem claim9_fresh_lifecycle (m m2 : ConduitManager) (now : Nat) (dup : Bool)
    (hns : m.conduitStatus ≠ ConduitStatus.starting)
    (hnd : ¬(m.conduitStatus = ConduitStatus.started ∧ dup = true))
    (hstarted : m2.conduitStatus = ConduitStatus.started) :
    (m.startConduit now dup true).1.activityStats =
        some (ActivityStats.init now) ∧
      (m.startConduit now dup true).1.conduitStatus = ConduitStatus.started ∧
      (ActivityStats.init now).totalBytesUp = 0 ∧
      (ActivityStats.init now).totalBytesDown = 0 ∧
      (ActivityStats.init now).currentConnectingClients = 0 ∧
      (ActivityStats.init now).currentConnectedClients = 0 ∧
      (ActivityStats.init now).startTime = (ActivityStats.init now).lastUpdate ∧
      (ActivityStats.init now).msElapsedTime = 0 ∧
      (ActivityStats.init now).seriesFast = ActivitySeries.init 1000 288 ∧
      (ActivityStats.init now).seriesFast.bytesUp = List.replicate 288 0 ∧
      (ActivityStats.init now).seriesFast.bytesDown = List.replicate 288 0 ∧
      (ActivityStats.init now).seriesFast.connectingClients =
        List.replicate 288 0 ∧
      (ActivityStats.init now).seriesFast.connectedClients =
        List.replicate 288 0 ∧
      (m2.stopConduit).1.activityStats = none := by
  unfold ConduitManager.startConduit ConduitManager.stopConduit
  rw [if_neg hns, if_neg hnd, if_pos rfl, if_pos hstarted]
  exact ⟨rfl, rfl, rfl, rfl, rfl, rfl, rfl,
    by simp [ActivityStats.msElapsedTime, ActivityStats.init],
    rfl, rfl, rfl, rfl, rfl, rfl⟩

/-- Witness for C9 from a stopped manager and a started one. -/
theorem claim9_fresh_lifecycle_witness :
    ((ConduitManager.mk ConduitStatus.stopped none).startConduit 42 false
          true).1.activityStats = some (ActivityStats.init 42) ∧
      ((ConduitManager.mk ConduitStatus.stopped none).startConduit 42 false
          true).1.conduitStatus = ConduitStatus.started ∧
      (ActivityStats.init 42).totalBytesUp = 0 ∧
      (ActivityStats.init 42).totalBytesDown = 0 ∧
      (ActivityStats.init 42).currentConnectingClients = 0 ∧
      (ActivityStats.init 42).currentConnectedClients = 0 ∧
      (ActivityStats.init 42).startTime = (ActivityStats.init 42).lastUpdate ∧
      (ActivityStats.init 42).msElapsedTime = 0 ∧
      (ActivityStats.init 42).seriesFast = ActivitySeries.init 1000 288 ∧
      (ActivityStats.init 42).seriesFast.bytesUp = List.replicate 288 0 ∧
      (ActivityStats.init 42).seriesFast.bytesDown = List.replicate 288 0 ∧
      (ActivityStats.init 42).seriesFast.connectingClients =
        List.replicate 288 0 ∧
      (ActivityStats.init 42).seriesFast.connectedClients =
        List.replicate 288 0 ∧
      ((ConduitManager.mk ConduitStatus.started
          (some (ActivityStats.init 0))).stopConduit).1.activityStats = none :=
  claim9_fresh_lifecycle (ConduitManager.mk ConduitStatus.stopped none)
    (ConduitManager.mk ConduitStatus.started (some (ActivityStats.init 0)))
    42 false (by decide) (by decide) (by decide)

/-- C10: with no active session (`activityStats = none`), a call to
`updateActivityStats` returns without trapping, leaves the manager state
unchanged, and emits no event. -/
theorem claim10_no_session_noop (m : ConduitManager) (now : Nat)
    (cg cd bu bd : Int) (h : m.activityStats = none) :
    m.updateActivityStats now cg cd bu bd = some (m, []) := by
  unfold ConduitManager.updateActivityStats
  rw [h]

/-- Witness for C10 on a concrete stopped manager. -/
theorem claim10_no_session_noop_witness :
    (ConduitManager.mk ConduitStatus.stopped none).updateActivityStats 99 1 2 3 4 =
      some (ConduitManager.mk ConduitStatus.stopped none, []) :=
  claim10_no_session_noop (ConduitManager.mk ConduitStatus.stopped none)
    99 1 2 3 4 (by decide)

/-- A JSON-like dictionary value, the codomain of the `asDictionary`
encodings (`[String: Any?]` in the source) and the domain of the zod
receiving schema. -/
inductive JValue where
  | num (n : Int)
  | str (s : String)
  | arr (xs : List JValue)
  | obj (fields : List (String × JValue))

/-- First-match key lookup in a dictionary, as JavaScript property access. -/
def jLookup : List (String × JValue) → String → Option JValue
  | [], _ => none
  | (k', v) :: rest, k => if k' = k then some v else jLookup rest k

/-- Embedding of `ReactInProxyActivityStats.DataByPeriod`. -/
structure DataByPeriod where
  numBuckets : Nat
  bytesUp : List Int
  bytesDown : List Int
  connectingClients : List Int
  connectedClients : List Int
  bucketPeriod : String

/-- Embedding of `struct ReactInProxyActivityStats`. -/
structure ReactInProxyActivityStats where
  elapsedTime : Nat
  totalBytesUp : Nat
  totalBytesDown : Nat
  currentConnectingClients : Int
  currentConnectedClients : Int
  dataByPeriod : DataByPeriod

/-- Embedding of `DataByPeriod.asDictionary`: one entry keyed by the bucket
period string, holding `numBuckets` and the four channel arrays. -/
def DataByPeriod.asDictionary (d : DataByPeriod) : JValue :=
  JValue.obj [(d.bucketPeriod, JValue.obj [
    ("numBuckets", JValue.num d.numBuckets),
    ("bytesUp", JValue.arr (d.bytesUp.map JValue.num)),
    ("bytesDown", JValue.arr (d.bytesDown.map JValue.num)),
    ("connectingClients", JValue.arr (d.connectingClients.map JValue.num)),
    ("connectedClients", JValue.arr (d.connectedClients.map JValue.num))])]

/-- Embedding of `ReactInProxyActivityStats.asDictionary`. -/
def ReactInProxyActivityStats.asDictionary (r : ReactInProxyActivityStats) :
    JValue :=
  JValue.obj [
    ("elapsedTime", JValue.num r.elapsedTime),
    ("totalBytesUp", JValue.num r.totalBytesUp),
    ("totalBytesDown", JValue.num r.totalBytesDown),
    ("currentConnectingClients", JValue.num r.currentConnectingClients),
    ("currentConnectedClients", JValue.num r.currentConnectedClients),
    ("dataByPeriod", r.dataByPeriod.asDictionary)]

/-- Embedding of the snapshot construction in
`ConduitModule.onInproxyProxyActivity(stats:)`, including the interpolated
`"\(msBucketPeriod)ms"` bucket-period key. -/
def ReactInProxyActivityStats.ofStats (stats : ActivityStats) :
    ReactInProxyActivityStats :=
  { elapsedTime := stats.msElapsedTime
    totalBytesUp := stats.totalBytesUp
    totalBytesDown := stats.totalBytesDown
    currentConnectingClients := stats.currentConnectingClients
    currentConnectedClients := stats.currentConnectedClients
    dataByPeriod := {
      numBuckets := stats.seriesFast.numBuckets
      bytesUp := stats.seriesFast.bytesUp
      bytesDown := stats.seriesFast.bytesDown
      connectingClients := stats.seriesFast.connectingClients
      connectedClients := stats.seriesFast.connectedClients
      bucketPeriod := toString stats.seriesFast.msBucketPeriod ++ "ms" } }

/-- Modelled from src/unnamed/part_001: `z.number()`. -/
def parseNumber : JValue → Option Int
  | JValue.num n => some n
  | _ => none

/-- Elementwise number parse of a JSON array's elements. -/
def parseNumberList : List JValue → Option (List Int)
  | [] => some []
  | x :: xs =>
    match parseNumber x, parseNumberList xs with
    | some n, some ns => some (n :: ns)
    | _, _ => none

/-- Modelled from src/unnamed/part_001: `z.array(z.number()).length(288)`. -/
def parseNumArray288 : JValue → Option (List Int)
  | JValue.arr xs =>
    match parseNumberList xs with
    | some ns => if ns.length = 288 then some ns else none
    | none => none
  | _ => none

/-- One required object field of a zod schema: present and valid. -/
def parseField {α : Type} (fields : List (String × JValue)) (k : String)
    (p : JValue → Option α) : Option α :=
  match jLookup fields k with
  | some v => p v
  | none => none

/-- Embedding of `InProxyActivityDataByPeriodSchema` (src/unnamed/part_001):
an object with exactly the four length-288 number arrays; like `z.object`,
the parse output keeps only the declared keys (unrecognized keys such as
`numBuckets` are stripped). -/
def parseInProxyActivityDataByPeriod : JValue → Option JValue
  | JValue.obj fields =>
    (match parseField fields "bytesUp" parseNumArray288,
        parseField fields "bytesDown" parseNumArray288,
        parseField fields "connectingClients" parseNumArray288,
        parseField fields "connectedClients" parseNumArray288 with
    | some bu, some bd, some cg, some cd =>
      some (JValue.obj [
        ("bytesUp", JValue.arr (bu.map JValue.num)),
        ("bytesDown", JValue.arr (bd.map JValue.num)),
        ("connectingClients", JValue.arr (cg.map JValue.num)),
        ("connectedClients", JValue.arr (cd.map JValue.num))])
    | _, _, _, _ => none)
  | _ => none

/-- Embedding of `InProxyActivityStatsSchema` (src/unnamed/part_001): the
five numeric fields plus `dataByPeriod."1000ms"` parsed by the
data-by-period schema; the output object holds exactly the declared keys. -/
def parseInProxyActivityStats : JValue → Option JValue
  | JValue.obj fields =>
    (match parseField fields "elapsedTime" parseNumber,
        parseField fields "totalBytesUp" parseNumber,
        parseField fields "totalBytesDown" parseNumber,
        parseField fields "currentConnectingClients" parseNumber,
        parseField fields "currentConnectedClients" parseNumber,
        parseField fields "dataByPeriod" (fun j =>
          match j with
          | JValue.obj dfs =>
            parseField dfs "1000ms" parseInProxyActivityDataByPeriod
          | _ => none) with
    | some et, some tu, some td, some cg, some cd, some dbp =>
      some (JValue.obj [
        ("elapsedTime", JValue.num et),
        ("totalBytesUp", JValue.num tu),
        ("totalBytesDown", JValue.num td),
        ("currentConnectingClients", JValue.num cg),
        ("currentConnectedClients", JValue.num cd),
        ("dataByPeriod", JValue.obj [("1000ms", dbp)])])
    | _, _, _, _, _, _ => none)
  | _ => none

/-- The part of the wire dictionary the receiving schema keeps: the full
encoding minus the `numBuckets` entry of the inner period object. -/
def ReactInProxyActivityStats.asSchemaDictionary
    (r : ReactInProxyActivityStats) : JValue :=
  JValue.obj [
    ("elapsedTime", JValue.num r.elapsedTime),
    ("totalBytesUp", JValue.num r.totalBytesUp),
    ("totalBytesDown", JValue.num r.totalBytesDown),
    ("currentConnectingClients", JValue.num r.currentConnectingClients),
    ("currentConnectedClients", JValue.num r.currentConnectedClients),
    ("dataByPeriod", JValue.obj [("1000ms", JValue.obj [
      ("bytesUp", JValue.arr (r.dataByPeriod.bytesUp.map JValue.num)),
      ("bytesDown", JValue.arr (r.dataByPeriod.bytesDown.map JValue.num)),
      ("connectingClients",
        JValue.arr (r.dataByPeriod.connectingClients.map JValue.num)),
      ("connectedClients",
        JValue.arr (r.dataByPeriod.connectedClients.map JValue.num))])])]

/-- The key list of the inner period object of a wire dictionary: which
named fields of the period payload are present. -/
def dataByPeriodInnerKeys (j : JValue) : List String :=
  match j with
  | JValue.obj fields =>
    (match jLookup fields "dataByPeriod" with
    | some (JValue.obj dfs) =>
      (match jLookup dfs "1000ms" with
      | some (JValue.obj inner) => inner.map Prod.fst
      | _ => [])
    | _ => [])
  | _ => []

theorem parseNumberList_map (xs : List Int) :
    parseNumberList (xs.map JValue.num) = some xs := by
  induction xs with
  | nil => rfl
  | cons x xs ih => simp [parseNumberList, parseNumber, ih]

theorem parseNumArray288_map {xs : List Int} (h : xs.length = 288) :
    parseNumArray288 (JValue.arr (xs.map JValue.num)) = some xs := by
  simp [parseNumArray288, parseNumberList_map, h]

/-- C5 counterexample: encoding a concrete snapshot and decoding it through
the declared receiving schema is not field-for-field lossless: the decoded
period object carries only the four channel arrays, while the encoded one
also carries `numBuckets` — the schema has no `numBuckets` field and strips
it, so the round trip is not the identity. -/
theorem claim5_counterexample :
    (parseInProxyActivityStats
        (ReactInProxyActivityStats.ofStats (ActivityStats.init 0)).asDictionary).map
        dataByPeriodInnerKeys =
      some ["bytesUp", "bytesDown", "connectingClients", "connectedClients"] ∧
    dataByPeriodInnerKeys
        (ReactInProxyActivityStats.ofStats (ActivityStats.init 0)).asDictionary =
      ["numBuckets", "bytesUp", "bytesDown", "connectingClients",
        "connectedClients"] ∧
    parseInProxyActivityStats
        (ReactInProxyActivityStats.ofStats (ActivityStats.init 0)).asDictionary ≠
      some (ReactInProxyActivityStats.ofStats (ActivityStats.init 0)).asDictionary := by
  refine ⟨by decide, by decide, ?_⟩
  intro h
  have hmap : (some ((ReactInProxyActivityStats.ofStats
      (ActivityStats.init 0)).asDictionary)).map dataByPeriodInnerKeys =
      some ["bytesUp", "bytesDown", "connectingClients", "connectedClients"] := by
    rw [← h]
    decide
  simp only [Option.map_some] at hmap
  exact absurd hmap (by decide)

/-- C5 amended: for every snapshot whose bucket-period key is `"1000ms"` and
whose four channel arrays have length 288, decoding the encoded dictionary
through the receiving schema succeeds and returns the encoding with the
`numBuckets` entry removed: every named field of the contract except
`numBuckets` survives the round trip; `numBuckets` is dropped because the
receiving schema does not declare it. -/
theorem claim5_roundtrip_drops_numBuckets (r : ReactInProxyActivityStats)
    (hbp : r.dataByPeriod.bucketPeriod = "1000ms")
    (h1 : r.dataByPeriod.bytesUp.length = 288)
    (h2 : r.dataByPeriod.bytesDown.length = 288)
    (h3 : r.dataByPeriod.connectingClients.length = 288)
    (h4 : r.dataByPeriod.connectedClients.length = 288) :
    parseInProxyActivityStats r.asDictionary = some r.asSchemaDictionary := by
  simp [ReactInProxyActivityStats.asDictionary, DataByPeriod.asDictionary, hbp,
    ReactInProxyActivityStats.asSchemaDictionary,
    parseInProxyActivityStats, parseInProxyActivityDataByPeriod, parseField,
    jLookup, parseNumber, parseNumArray288_map h1, parseNumArray288_map h2,
    parseNumArray288_map h3, parseNumArray288_map h4]

/-- Witness for the amended C5 on a fresh snapshot. -/
theorem claim5_roundtrip_witness :
    parseInProxyActivityStats
        (ReactInProxyActivityStats.ofStats (ActivityStats.init 0)).asDictionary =
      some (ReactInProxyActivityStats.ofStats
        (ActivityStats.init 0)).asSchemaDictionary :=
  claim5_roundtrip_drops_numBuckets
    (ReactInProxyActivityStats.ofStats (ActivityStats.init 0))
    (by decide) (by decide) (by decide) (by decide) (by decide)
